import Mathlib

/-!
Verification of the SQL write-operation guard and tool handlers of the
`mcp_snowflake_server` package.

The embedding follows the Python source:

* `src/mcp_snowflake_server/db_client.py`, `SnowflakeDB.execute_query`
  (the inline "SAFETY CHECK" block and the session-initialization flow);
* `src/mcp_snowflake_server/server.py`, `handle_read_query`,
  `handle_write_query`, `handle_create_table`.

Strings are modelled as Lean `String`s (a wrapper around `List Char`);
Python's `str.strip()`, `str.upper()` and `str.split()` (no arguments,
ASCII input) are embedded as `strip`, `upper` and `splitWs` below.  The
partial list indexing `query_upper.split()[0]` is embedded with `Option`
(`none` models an `IndexError`).
-/

namespace SnowflakeGuard

/-- Whitespace predicate shared by Python's no-argument `str.strip()` and
`str.split()` (ASCII whitespace: space, tab, newline, carriage return,
vertical tab, form feed). -/
def isSpace (c : Char) : Bool :=
  c.toNat = 32 || c.toNat = 9 || c.toNat = 10 || c.toNat = 13 ||
  c.toNat = 11 || c.toNat = 12

/-- Embedding of Python `str.strip()` restricted to the trailing end:
drop trailing whitespace. -/
def rstrip (l : List Char) : List Char :=
  (l.reverse.dropWhile isSpace).reverse

/-- Embedding of Python `str.strip()`: drop leading and trailing
whitespace. -/
def strip (l : List Char) : List Char :=
  (rstrip l).dropWhile isSpace

/-- Embedding of Python `str.upper()` on ASCII text: upper-case each
character. -/
def upper (l : List Char) : List Char :=
  l.map Char.toUpper

/-- Helper for `splitWs`: `acc` holds the reversed characters of the token
currently being read. -/
def splitWsAux : List Char → List Char → List (List Char)
  | [], acc => if acc = [] then [] else [acc.reverse]
  | c :: cs, acc =>
    if isSpace c then
      if acc = [] then splitWsAux cs []
      else acc.reverse :: splitWsAux cs []
    else
      splitWsAux cs (c :: acc)

/-- Embedding of Python `str.split()` with no arguments: split on runs of
whitespace, discarding empty tokens. -/
def splitWs (l : List Char) : List (List Char) :=
  splitWsAux l []

/-- The `write_keywords` list of `SnowflakeDB.execute_query`
(db_client.py line 88). -/
def write_keywords : List (List Char) :=
  ["INSERT".toList, "UPDATE".toList, "DELETE".toList, "CREATE".toList,
   "DROP".toList, "ALTER".toList, "TRUNCATE".toList, "MERGE".toList]

/-- Embedding of `first_word = query_upper.split()[0] if query_upper else ''`
(db_client.py line 89) where `query_upper = query.strip().upper()`.
`none` models the `IndexError` that `[0]` would raise on an empty split
(proved unreachable below). -/
def firstWordOpt (q : List Char) : Option (List Char) :=
  let query_upper := upper (strip q)
  if query_upper = [] then some [] else (splitWs query_upper).head?

/-- Embedding of the SAFETY CHECK block of `SnowflakeDB.execute_query`
(db_client.py lines 86-91): `some true` means the first word is in
`write_keywords` and the query is rejected with a `ValueError`;
`some false` means the check passes; `none` models a crash of the check
itself. -/
def writeCheck (q : String) : Option Bool :=
  (firstWordOpt q.toList).map (fun w => write_keywords.contains w)

/-- The mutating keyword set named by the specification (§4.1).  This is
the SPEC-side set, written down only to compare it with the code's
`write_keywords`; the code checks a strict subset of it. -/
def spec_mutating_keywords : List (List Char) :=
  ["INSERT".toList, "UPDATE".toList, "DELETE".toList, "CREATE".toList,
   "DROP".toList, "ALTER".toList, "TRUNCATE".toList, "MERGE".toList,
   "GRANT".toList, "REVOKE".toList, "CALL".toList]

/-- Abstract state of a `SnowflakeDB` object: whether `self.session` is
set, the value of `self.auth_time`, the `self.insights` list, and whether
`self.init_task` exists and is not yet done. -/
structure DBState where
  hasSession : Bool
  auth_time : Nat
  insights : List String
  initTaskPending : Bool

/-- The `AUTH_EXPIRATION_TIME` class constant of `SnowflakeDB`
(db_client.py line 20). -/
def AUTH_EXPIRATION_TIME : Nat := 1800

/-- Observable side effects of one `execute_query` call: awaiting the
pending `init_task`, calling `_init_database`, and handing the query text
to `self.session.sql`. -/
inductive DBEffect
  | awaitInitTask
  | initDatabase
  | runSql (q : String)
deriving DecidableEq

/-- Outcome of one `execute_query` call.  `safetyError` is the
`ValueError` raised by the SAFETY CHECK; `ran` means the query text
reached `self.session.sql(query)`; `checkCrashed` models an `IndexError`
inside the check itself (proved unreachable). -/
inductive ExecOutcome
  | safetyError (msg : String)
  | ran (q : String)
  | checkCrashed
deriving DecidableEq

/-- The f-string of the `ValueError` raised by the SAFETY CHECK
(db_client.py line 91). -/
def safety_message (first_word : List Char) : String :=
  "SAFETY: " ++ String.mk first_word ++
    " operations are not allowed in this read-only server"

/-- Embedding of `SnowflakeDB.execute_query` (db_client.py lines 85-111)
as a state transition.  `now` stands for `time.time()`.  The model records
which effects happen and in what order; session initialization (either by
awaiting the pending `init_task` or by calling `_init_database`) is
abstracted as setting `hasSession` and refreshing `auth_time`, and is
assumed to succeed — its failure modes are irrelevant to the claims, which
concern the rejection path that precedes it. -/
def execute_query (st : DBState) (now : Nat) (q : String) :
    DBState × List DBEffect × ExecOutcome :=
  match firstWordOpt q.toList with
  | none => (st, [], .checkCrashed)
  | some first_word =>
    if write_keywords.contains first_word then
      (st, [], .safetyError (safety_message first_word))
    else if st.initTaskPending then
      ({ st with initTaskPending := false, hasSession := true,
                 auth_time := now },
       [.awaitInitTask, .runSql q], .ran q)
    else if !st.hasSession || now - st.auth_time > AUTH_EXPIRATION_TIME then
      ({ st with hasSession := true, auth_time := now },
       [.initDatabase, .runSql q], .ran q)
    else
      (st, [.runSql q], .ran q)

end SnowflakeGuard

namespace SpecDetector

/-- Modelled from the spec: `server.py` imports `SQLWriteDetector` from
`write_detector.py`, whose source is not among the provided files.  The
spec (§4.1, §6, §7) gives its contract: strip leading whitespace,
comments and optional parenthesis wrapper; split multi-statement input on
semicolons and flag the whole input if any segment is a write; classify a
`WITH ... AS (...)` statement by the verb of its trailing top-level
statement; treat the eleven-keyword mutating set as writes; treat
comment-only or unrecognized input as a write (fail closed); treat
empty/whitespace-only input as a non-write.  `dropUntilNewline` drops a
`--` line comment body. -/
def dropUntilNewline (l : List Char) : List Char :=
  l.dropWhile (fun c => !(c = '\n'))

/-- Modelled from the spec: drop the body of a `/* */` block comment,
including the closing delimiter. -/
def dropUntilBlockEnd : List Char → List Char
  | [] => []
  | '*' :: '/' :: rest => rest
  | _ :: rest => dropUntilBlockEnd rest

/-- Modelled from the spec: repeatedly strip leading whitespace and
leading `--` and `/* */` comments; `fuel` bounds the recursion. -/
def stripWsComments : Nat → List Char → List Char
  | 0, l => l
  | fuel + 1, l =>
    let l1 := l.dropWhile SnowflakeGuard.isSpace
    match l1 with
    | '-' :: '-' :: rest => stripWsComments fuel (dropUntilNewline rest)
    | '/' :: '*' :: rest => stripWsComments fuel (dropUntilBlockEnd rest)
    | _ => l1

/-- Modelled from the spec: strip all leading whitespace and comments. -/
def stripAll (l : List Char) : List Char :=
  stripWsComments l.length l

/-- Modelled from the spec: split the input on `;` separators, keeping
empty segments (Python `str.split(";")` semantics). -/
def splitSemisAux : List Char → List Char → List (List Char)
  | [], acc => [acc.reverse]
  | c :: cs, acc =>
    if c = ';' then acc.reverse :: splitSemisAux cs []
    else splitSemisAux cs (c :: acc)

/-- Modelled from the spec: the list of `;`-separated segments. -/
def splitSemis (l : List Char) : List (List Char) :=
  splitSemisAux l []

/-- Modelled from the spec: the whitespace-separated tokens that appear at
parenthesis depth zero, in order.  `d` is the current depth and `acc` the
reversed current token. -/
def topTokensAux : List Char → Nat → List Char → List (List Char)
  | [], _, acc => if acc = [] then [] else [acc.reverse]
  | c :: cs, d, acc =>
    if c = '(' then
      if acc = [] then topTokensAux cs (d + 1) []
      else acc.reverse :: topTokensAux cs (d + 1) []
    else if c = ')' then
      if acc = [] then topTokensAux cs (d - 1) []
      else acc.reverse :: topTokensAux cs (d - 1) []
    else if d = 0 then
      if SnowflakeGuard.isSpace c then
        if acc = [] then topTokensAux cs 0 []
        else acc.reverse :: topTokensAux cs 0 []
      else topTokensAux cs d (c :: acc)
    else topTokensAux cs d acc

/-- Modelled from the spec: classify one `;`-separated segment.
`none` means the segment is whitespace-only (nothing to execute) and is
skipped; `some b` is its write classification. -/
def classifySegment (seg : List Char) : Option Bool :=
  if seg.dropWhile SnowflakeGuard.isSpace = [] then none
  else
    let s := stripAll seg
    if s = [] then some true
    else
      let su := SnowflakeGuard.upper s
      let su := su.dropWhile (fun c => c = '(' || SnowflakeGuard.isSpace c)
      match (SnowflakeGuard.splitWs su).head? with
      | none => some true
      | some tok =>
        if SnowflakeGuard.spec_mutating_keywords.contains tok then some true
        else if tok = "WITH".toList then
          let verbs := (topTokensAux su 0 []).filter
            (fun t => SnowflakeGuard.spec_mutating_keywords.contains t ||
              t = "SELECT".toList)
          match verbs.head? with
          | some v => some (SnowflakeGuard.spec_mutating_keywords.contains v)
          | none => some true
        else if tok = "SELECT".toList then some false
        else some true

/-- Modelled from the spec: `SQLWriteDetector.analyze_query` returns a
result whose `contains_write` field is true exactly when some segment is
classified as a write. -/
def analyze_query (q : String) : Bool :=
  ((splitSemis q.toList).filterMap classifySegment).any id

end SpecDetector

namespace ServerModel

/-- Result of one `handle_read_query` call (server.py lines 266-294).
`errorMissing` is the `ValueError` for a missing `query` argument;
`errorWrite` is the `ValueError` raised when the write detector flags the
query; `executed` means the query text was handed to `db.execute_query`. -/
inductive ReadQueryResult
  | errorMissing
  | errorWrite (msg : String)
  | executed (q : String)
deriving DecidableEq

/-- The message of the `ValueError` that `handle_read_query` raises when
the detector reports a write (server.py lines 271-273). -/
def read_query_reject_message : String :=
  "Calls to read_query should not contain write operations"

/-- Embedding of `handle_read_query` (server.py lines 266-294) up to the
`db.execute_query` call.  `query?` is the value of `arguments["query"]`
(`none` when the argument dict is missing or has no `query` key);
`analyze_query` is the `contains_write` field of
`write_detector.analyze_query`. -/
def handle_read_query (query? : Option String)
    (analyze_query : String → Bool) : ReadQueryResult :=
  match query? with
  | none => .errorMissing
  | some q =>
    if analyze_query q then .errorWrite read_query_reject_message
    else .executed q

/-- Result of a write-intent tool call (`handle_write_query` or
`handle_create_table`). -/
inductive ToolResult
  | errored (msg : String)
  | executed (q : String)
deriving DecidableEq

/-- The message of the unconditional `ValueError` in `handle_write_query`
(server.py lines 308-310). -/
def write_query_disabled_message : String :=
  "Write operations are permanently disabled in this server for safety"

/-- The message of the unconditional `ValueError` in `handle_create_table`
(server.py lines 322-324). -/
def create_table_disabled_message : String :=
  "Table creation is permanently disabled in this server for safety"

/-- Embedding of `handle_write_query` (server.py lines 308-319): the body
raises immediately; the remaining lines are commented out in the source.
The parameters mirror the call site's `arguments`, `write_detector` and
`allow_write` and are all ignored. -/
def handle_write_query (query? : Option String)
    (write_detector : String → Bool) (allow_write : Bool) : ToolResult :=
  .errored write_query_disabled_message

/-- Embedding of `handle_create_table` (server.py lines 322-333): the body
raises immediately; the remaining lines are commented out in the source. -/
def handle_create_table (query? : Option String)
    (write_detector : String → Bool) (allow_write : Bool) : ToolResult :=
  .errored create_table_disabled_message

end ServerModel

namespace SnowflakeGuard

/-! ### Lemmas about the whitespace tokenizer -/

theorem isSpace_toUpper (c : Char) : isSpace c.toUpper = isSpace c := by
  by_cases h : c.toNat ≥ 97 ∧ c.toNat ≤ 122
  · have hup : c.toUpper = Char.ofNat (c.toNat - 32) := by
      simp [Char.toUpper, h]
    have hv : (c.toNat - 32).isValidChar := by
      left
      omega
    have ht : (Char.ofNat (c.toNat - 32)).toNat = c.toNat - 32 := by
      rw [Char.ofNat, dif_pos hv]
      rfl
    have h97 := h.1
    have hL : isSpace (Char.ofNat (c.toNat - 32)) = false := by
      simp only [isSpace, ht, Bool.or_eq_false_iff, decide_eq_false_iff_not]
      omega
    have hR : isSpace c = false := by
      simp only [isSpace, Bool.or_eq_false_iff, decide_eq_false_iff_not]
      omega
    rw [hup, hL, hR]
  · have hup : c.toUpper = c := by
      simp [Char.toUpper, h]
    rw [hup]

theorem strip_eq_nil_of_all_space (l : List Char)
    (h : ∀ c ∈ l, isSpace c = true) : strip l = [] := by
  have hr : l.reverse.dropWhile isSpace = [] := by
    rw [List.dropWhile_eq_nil_iff]
    intro c hc
    exact h c (List.mem_reverse.mp hc)
  simp [strip, rstrip, hr]

theorem strip_head_not_space (l : List Char) (c : Char) (cs : List Char)
    (h : strip l = c :: cs) : isSpace c = false := by
  have := List.head?_dropWhile_not isSpace (rstrip l)
  rw [show (rstrip l).dropWhile isSpace = strip l from rfl, h] at this
  simpa using this

theorem splitWsAux_ne_nil (l acc : List Char) (h : acc ≠ []) :
    splitWsAux l acc ≠ [] := by
  induction l generalizing acc with
  | nil => simp [splitWsAux, h]
  | cons c cs ih =>
    simp only [splitWsAux]
    split
    · simp [h]
    · exact ih (c :: acc) (by simp)

theorem splitWs_cons_ne_nil (c : Char) (l : List Char)
    (h : isSpace c = false) : splitWs (c :: l) ≠ [] := by
  simp only [splitWs, splitWsAux, h]
  exact splitWsAux_ne_nil l [c] (by simp)

theorem splitWsAux_head_pre (l acc : List Char) (h : acc ≠ []) :
    ∃ t, (splitWsAux l acc).head? = some (acc.reverse ++ t) := by
  induction l generalizing acc with
  | nil =>
    refine ⟨[], ?_⟩
    simp [splitWsAux, h]
  | cons c cs ih =>
    simp only [splitWsAux]
    split
    · refine ⟨[], ?_⟩
      simp [h]
    · obtain ⟨t, ht⟩ := ih (c :: acc) (by simp)
      exact ⟨c :: t, by simpa using ht⟩

theorem splitWsAux_token (tok : List Char) :
    ∀ (acc : List Char) (c : Char) (rest : List Char),
    (∀ x ∈ tok, isSpace x = false) → isSpace c = true →
    (acc ≠ [] ∨ tok ≠ []) →
    splitWsAux (tok ++ c :: rest) acc = (acc.reverse ++ tok) :: splitWs rest := by
  induction tok with
  | nil =>
    intro acc c rest _ hc hne
    have ha : acc ≠ [] := by
      rcases hne with h | h
      · exact h
      · exact absurd rfl h
    simp [splitWsAux, hc, ha, splitWs]
  | cons x xs ih =>
    intro acc c rest htok hc _
    have hx : isSpace x = false := htok x (by simp)
    simp only [List.cons_append, splitWsAux, hx]
    rw [if_neg (by simp [hx])]
    simpa using ih (x :: acc) c rest (fun y hy => htok y (by simp [hy])) hc
      (Or.inl (by simp))

theorem splitWsAux_whole (tok : List Char) :
    ∀ (acc : List Char),
    (∀ x ∈ tok, isSpace x = false) → (acc ≠ [] ∨ tok ≠ []) →
    splitWsAux tok acc = [acc.reverse ++ tok] := by
  induction tok with
  | nil =>
    intro acc _ hne
    have ha : acc ≠ [] := by
      rcases hne with h | h
      · exact h
      · exact absurd rfl h
    simp [splitWsAux, ha]
  | cons x xs ih =>
    intro acc htok _
    have hx : isSpace x = false := htok x (by simp)
    simp only [splitWsAux]
    rw [if_neg (by simp [hx])]
    simpa using ih (x :: acc) (fun y hy => htok y (by simp [hy]))
      (Or.inl (by simp))

/-- Helper: a string whose stripped, upper-cased form is a non-space token
followed by a whitespace character has exactly that token as its first
word. -/
theorem firstWordOpt_of_decomp (q kw rest : List Char) (c : Char)
    (hq : upper (strip q) = kw ++ c :: rest)
    (hkw : ∀ x ∈ kw, isSpace x = false) (hk : kw ≠ [])
    (hc : isSpace c = true) :
    firstWordOpt q = some kw := by
  have hne : upper (strip q) ≠ [] := by
    rw [hq]
    rcases kw with _ | ⟨a, as⟩
    · exact absurd rfl hk
    · simp
  simp only [firstWordOpt, if_neg hne, hq, splitWs]
  rw [splitWsAux_token kw [] c rest hkw hc (Or.inr hk)]
  simp

/-- Helper: a string whose stripped, upper-cased form is exactly a
non-space token has that token as its first word. -/
theorem firstWordOpt_of_whole (q kw : List Char)
    (hq : upper (strip q) = kw)
    (hkw : ∀ x ∈ kw, isSpace x = false) (hk : kw ≠ []) :
    firstWordOpt q = some kw := by
  have hne : upper (strip q) ≠ [] := by rw [hq]; exact hk
  simp only [firstWordOpt, if_neg hne, hq, splitWs]
  rw [splitWsAux_whole kw [] hkw (Or.inr hk)]
  simp

/-- Helper: `contains` on a keyword list is false for a non-member. -/
theorem contains_eq_false (ks : List (List Char)) (w : List Char)
    (h : w ∉ ks) : ks.contains w = false := by
  simp [List.contains, h]

end SnowflakeGuard

namespace SnowflakeGuard

/-! ### Claim theorems -/

/-- C1 (amended): the guard of `SnowflakeDB.execute_query` rejects every
query whose stripped, upper-cased text starts with one of the CODE's
eight write keywords (INSERT, UPDATE, DELETE, CREATE, DROP, ALTER,
TRUNCATE, MERGE) followed by whitespace or end of input.  The spec's
additional keywords GRANT, REVOKE and CALL are not checked by the code
(see `c1_spec_keyword_not_rejected`). -/
theorem c1_code_keywords_rejected (q : String) (kw : List Char)
    (hkw : write_keywords.contains kw = true)
    (hq : (∃ c rest, upper (strip q.toList) = kw ++ c :: rest ∧
            isSpace c = true) ∨
          upper (strip q.toList) = kw) :
    writeCheck q = some true := by
  have hmem : kw ∈ write_keywords := by simpa using hkw
  have hprops : kw ≠ [] ∧ ∀ x ∈ kw, isSpace x = false := by
    fin_cases hmem <;> exact ⟨by decide, by decide⟩
  have hfw : firstWordOpt q.toList = some kw := by
    rcases hq with ⟨c, rest, hdec, hc⟩ | hwhole
    · exact firstWordOpt_of_decomp _ _ _ _ hdec hprops.2 hprops.1 hc
    · exact firstWordOpt_of_whole _ _ hwhole hprops.2 hprops.1
  have hfw' : firstWordOpt q.data = some kw := hfw
  simp [writeCheck, hfw', hmem]

/-- C1 witness: `"  insert into t values (1)"` is rejected. -/
theorem c1_code_keywords_rejected_witness :
    write_keywords.contains "INSERT".toList = true ∧
    upper (strip "  insert into t values (1)".toList) =
      "INSERT".toList ++ ' ' :: "INTO T VALUES (1)".toList ∧
    isSpace ' ' = true ∧
    writeCheck "  insert into t values (1)" = some true :=
  ⟨by decide, by decide, by decide,
    c1_code_keywords_rejected "  insert into t values (1)" "INSERT".toList
      (by decide)
      (Or.inl ⟨' ', "INTO T VALUES (1)".toList, by decide, by decide⟩)⟩

/-- C1 counterexample: GRANT is in the spec's mutating set and is the
stripped, case-folded leading token of this query, yet the guard reports
no write, contradicting the claim's eleven-keyword set. -/
theorem c1_spec_keyword_not_rejected :
    spec_mutating_keywords.contains "GRANT".toList = true ∧
    firstWordOpt "GRANT SELECT ON t TO PUBLIC".toList =
      some "GRANT".toList ∧
    writeCheck "GRANT SELECT ON t TO PUBLIC" = some false :=
  ⟨by decide, by decide, by decide⟩

/-- C2 (amended): the guard never splits on semicolons; it looks only at
the first whitespace-separated token, so any input whose stripped,
upper-cased text starts with `SELECT` followed by whitespace passes the
check no matter what statements follow the first one. -/
theorem c2_first_token_select_passes (q : String) (c : Char)
    (rest : List Char)
    (hq : upper (strip q.toList) = "SELECT".toList ++ c :: rest)
    (hc : isSpace c = true) :
    writeCheck q = some false := by
  have hfw : firstWordOpt q.toList = some "SELECT".toList :=
    firstWordOpt_of_decomp _ _ _ _ hq (by decide) (by decide) hc
  simp only [writeCheck, hfw, Option.map_some']
  decide

/-- C2 witness: the smuggling input of the claim passes the guard. -/
theorem c2_first_token_select_passes_witness :
    upper (strip "SELECT 1; DROP TABLE x;".toList) =
      "SELECT".toList ++ ' ' :: "1; DROP TABLE X;".toList ∧
    isSpace ' ' = true ∧
    writeCheck "SELECT 1; DROP TABLE x;" = some false :=
  ⟨by decide, by decide,
    c2_first_token_select_passes "SELECT 1; DROP TABLE x;" ' '
      "1; DROP TABLE X;".toList (by decide) (by decide)⟩

/-- C2 counterexample: the claim's own test vector fails — the guard
reports no write for `"SELECT 1; DROP TABLE x;"`. -/
theorem c2_smuggling_not_detected :
    writeCheck "SELECT 1; DROP TABLE x;" = some false ∧
    writeCheck "SELECT 1; DROP TABLE x;" ≠ some true :=
  ⟨by decide, by decide⟩

/-- C3 (amended): the guard strips no comments; any input whose stripped
text starts with `-` (in particular a leading `--` line comment) passes
the check, because its first token starts with `-` and no write keyword
does. -/
theorem c3_leading_comment_passes (q : String) (rest : List Char)
    (hq : strip q.toList = '-' :: rest) :
    writeCheck q = some false := by
  have hupper : upper (strip q.toList) = '-' :: upper rest := by
    rw [hq]
    simp [upper, show Char.toUpper '-' = '-' from by decide]
  have hne : upper (strip q.toList) ≠ [] := by
    rw [hupper]
    simp
  obtain ⟨t, ht⟩ := splitWsAux_head_pre (upper rest) ['-'] (by simp)
  have h1 : splitWs ('-' :: upper rest) = splitWsAux (upper rest) ['-'] := by
    simp only [splitWs, splitWsAux]
    rw [if_neg (show ¬ isSpace '-' = true by decide)]
  have hfw : firstWordOpt q.toList = some ('-' :: t) := by
    simp only [firstWordOpt, if_neg hne, hupper, h1]
    simpa using ht
  have hmem : ('-' :: t) ∉ write_keywords := by
    intro hm
    exact ((show ∀ w ∈ write_keywords, w.head? ≠ some '-' by decide)
      ('-' :: t) hm) rfl
  have hfw' : firstWordOpt q.data = some ('-' :: t) := hfw
  simp [writeCheck, hfw', hmem]

/-- C3 witness: the claim's own test vector passes the guard. -/
theorem c3_leading_comment_passes_witness :
    strip "-- comment\nDELETE FROM t".toList =
      '-' :: "- comment\nDELETE FROM t".toList ∧
    writeCheck "-- comment\nDELETE FROM t" = some false :=
  ⟨by decide,
    c3_leading_comment_passes "-- comment\nDELETE FROM t"
      "- comment\nDELETE FROM t".toList (by decide)⟩

/-- C3 counterexample: a DELETE hidden behind a leading line comment is
not detected, contradicting the claim that comments are stripped before
keyword inspection. -/
theorem c3_comment_hidden_delete_not_detected :
    writeCheck "-- comment\nDELETE FROM t" = some false ∧
    writeCheck "-- comment\nDELETE FROM t" ≠ some true :=
  ⟨by decide, by decide⟩

/-- C4 (amended): every statement whose stripped, upper-cased text starts
with `WITH` followed by whitespace passes the guard, whatever verb its
CTE tail contains — the code never inspects the tail.  A CTE with a read
tail is (correctly) not flagged, but a CTE with a write tail is not
flagged either. -/
theorem c4_cte_always_passes (q : String) (c : Char) (rest : List Char)
    (hq : upper (strip q.toList) = "WITH".toList ++ c :: rest)
    (hc : isSpace c = true) :
    writeCheck q = some false := by
  have hfw : firstWordOpt q.toList = some "WITH".toList :=
    firstWordOpt_of_decomp _ _ _ _ hq (by decide) (by decide) hc
  simp only [writeCheck, hfw, Option.map_some']
  decide

/-- C4 witness: the claim's write-tail test vector passes the guard. -/
theorem c4_cte_always_passes_witness :
    upper (strip "WITH a AS (SELECT 1) INSERT INTO t SELECT * FROM a".toList) =
      "WITH".toList ++ ' ' ::
        "A AS (SELECT 1) INSERT INTO T SELECT * FROM A".toList ∧
    isSpace ' ' = true ∧
    writeCheck "WITH a AS (SELECT 1) INSERT INTO t SELECT * FROM a" =
      some false :=
  ⟨by decide, by decide,
    c4_cte_always_passes "WITH a AS (SELECT 1) INSERT INTO t SELECT * FROM a"
      ' ' "A AS (SELECT 1) INSERT INTO T SELECT * FROM A".toList
      (by decide) (by decide)⟩

/-- C4 counterexample: the claim's CTE-with-write-tail vector is not
flagged as a write. -/
theorem c4_cte_write_tail_not_detected :
    writeCheck "WITH a AS (SELECT 1) INSERT INTO t SELECT * FROM a" =
      some false ∧
    writeCheck "WITH a AS (SELECT 1) INSERT INTO t SELECT * FROM a" ≠
      some true :=
  ⟨by decide, by decide⟩

/-- C5 (amended): the guard fails OPEN, not closed — it reports a write
only when the first token is one of the eight recognized keywords, so
comment-only statements and unrecognized leading tokens all pass. -/
theorem c5_write_only_for_recognized_keyword (q : String)
    (h : writeCheck q = some true) :
    ∃ w, firstWordOpt q.toList = some w ∧
      write_keywords.contains w = true := by
  unfold writeCheck at h
  cases hfw : firstWordOpt q.toList with
  | none =>
    rw [hfw] at h
    simp at h
  | some w =>
    rw [hfw] at h
    simp only [Option.map_some', Option.some.injEq] at h
    exact ⟨w, rfl, h⟩

/-- C5 witness: the rejection of `"TRUNCATE TABLE t"` is explained by a
recognized keyword. -/
theorem c5_write_only_for_recognized_keyword_witness :
    ∃ w, firstWordOpt "TRUNCATE TABLE t".toList = some w ∧
      write_keywords.contains w = true :=
  c5_write_only_for_recognized_keyword "TRUNCATE TABLE t" (by decide)

/-- C5 counterexample: a comment-only statement and an unrecognized
leading token are both classified as non-writes, contradicting the
fail-closed claim. -/
theorem c5_ambiguous_input_passes :
    writeCheck "-- nothing but a comment" = some false ∧
    writeCheck "FOOBAR 1" = some false :=
  ⟨by decide, by decide⟩

/-- C8 (confirmed): every empty or whitespace-only input passes the guard
with no write detected. -/
theorem c8_blank_input_no_write (q : String)
    (h : ∀ c ∈ q.toList, isSpace c = true) :
    writeCheck q = some false := by
  have hs : strip q.toList = [] := strip_eq_nil_of_all_space _ h
  have hu : upper (strip q.toList) = [] := by
    rw [hs]
    rfl
  simp only [writeCheck, firstWordOpt, hu, if_pos rfl, Option.map_some']
  decide

/-- C8 witness: the empty string and a whitespace-only string both pass. -/
theorem c8_blank_input_no_write_witness :
    writeCheck "" = some false ∧ writeCheck " \t\n " = some false :=
  ⟨c8_blank_input_no_write "" (by decide),
    c8_blank_input_no_write " \t\n " (by decide)⟩

/-- C9 (confirmed): the classification step is total — the indexing
`query_upper.split()[0]`, guarded by `if query_upper`, never raises, so
`writeCheck` always returns a classification. -/
theorem c9_check_total (q : String) : (writeCheck q).isSome = true := by
  have hbody : firstWordOpt q.toList =
      (if upper (strip q.toList) = [] then some []
       else (splitWs (upper (strip q.toList))).head?) := rfl
  have hfw : (firstWordOpt q.toList).isSome = true := by
    rw [hbody]
    by_cases he : upper (strip q.toList) = []
    · rw [if_pos he]
      rfl
    · rw [if_neg he]
      have hs : strip q.toList ≠ [] := by
        intro h0
        apply he
        rw [h0]
        rfl
      obtain ⟨c, cs, hcs⟩ : ∃ c cs, strip q.toList = c :: cs := by
        rcases h : strip q.toList with _ | ⟨c, cs⟩
        · exact absurd h hs
        · exact ⟨c, cs, rfl⟩
      have hcsp : isSpace c = false := strip_head_not_space _ _ _ hcs
      have hupper : upper (strip q.toList) = c.toUpper :: upper cs := by
        rw [hcs]
        rfl
      have hne : splitWs (c.toUpper :: upper cs) ≠ [] :=
        splitWs_cons_ne_nil _ _ (by rw [isSpace_toUpper]; exact hcsp)
      rw [hupper]
      cases hh : (splitWs (c.toUpper :: upper cs)).head? with
      | none => exact absurd (List.head?_eq_none_iff.mp hh) hne
      | some w => rfl
  cases h : firstWordOpt q.toList with
  | none =>
    rw [h] at hfw
    simp at hfw
  | some w =>
    have h' : firstWordOpt q.data = some w := h
    simp [writeCheck, h']

/-- C10 (confirmed): the safety check of `execute_query` runs before any
session initialization, init-task wait, or `session.sql` call; a rejected
query leaves the `SnowflakeDB` state untouched and produces no database
effect. -/
theorem c10_rejection_atomic (st : DBState) (now : Nat) (q : String)
    (w : List Char) (hfw : firstWordOpt q.toList = some w)
    (hw : write_keywords.contains w = true) :
    execute_query st now q = (st, [], .safetyError (safety_message w)) := by
  have hfw' : firstWordOpt q.data = some w := hfw
  have hmem : w ∈ write_keywords := by simpa using hw
  simp [execute_query, hfw, hfw', hw, hmem]

/-- C10 witness: rejecting `"DROP TABLE t"` from a fresh state with a
pending init task changes nothing and runs nothing. -/
theorem c10_rejection_atomic_witness :
    execute_query ⟨false, 0, [], true⟩ 5000 "DROP TABLE t" =
      (⟨false, 0, [], true⟩, [],
        .safetyError (safety_message "DROP".toList)) :=
  c10_rejection_atomic ⟨false, 0, [], true⟩ 5000 "DROP TABLE t"
    "DROP".toList (by decide) (by decide)

end SnowflakeGuard

namespace ServerModel

/-- C6 (amended): when the write detector classifies the query as a
write, `handle_read_query` rejects it before it reaches
`db.execute_query`, but with the fixed message
"Calls to read_query should not contain write operations", which does not
name the offending keyword. -/
theorem c6_read_path_rejects_with_fixed_message
    (analyze : String → Bool) (q : String) (h : analyze q = true) :
    handle_read_query (some q) analyze =
      .errorWrite read_query_reject_message ∧
    read_query_reject_message =
      "Calls to read_query should not contain write operations" := by
  constructor
  · simp [handle_read_query, h]
  · rfl

/-- C6 witness: a DELETE is rejected on the read path with the fixed
message (the detector is the spec-modelled `SQLWriteDetector`). -/
theorem c6_read_path_rejects_with_fixed_message_witness :
    handle_read_query (some "DELETE FROM t") SpecDetector.analyze_query =
      .errorWrite read_query_reject_message ∧
    read_query_reject_message =
      "Calls to read_query should not contain write operations" :=
  c6_read_path_rejects_with_fixed_message SpecDetector.analyze_query
    "DELETE FROM t" (by decide)

/-- C6 counterexample: `"DROP TABLE x"` is classified as a write and
rejected, but the rejection message does not contain the offending
keyword DROP, contradicting the claim that the message identifies it. -/
theorem c6_message_does_not_name_keyword :
    SpecDetector.analyze_query "DROP TABLE x" = true ∧
    handle_read_query (some "DROP TABLE x") SpecDetector.analyze_query =
      .errorWrite read_query_reject_message ∧
    ¬ List.IsInfix "DROP".toList read_query_reject_message.toList :=
  ⟨by decide, by decide, by decide⟩

/-- C7 (confirmed): `handle_write_query` and `handle_create_table` raise
unconditionally — for every argument, every detector and every
`allow_write` value they return their fixed error and never execute a
statement. -/
theorem c7_write_surfaces_permanently_disabled :
    ∀ (query? : Option String) (wd : String → Bool) (aw : Bool),
      handle_write_query query? wd aw =
        .errored write_query_disabled_message ∧
      handle_create_table query? wd aw =
        .errored create_table_disabled_message ∧
      (∀ q, handle_write_query query? wd aw ≠ .executed q) ∧
      (∀ q, handle_create_table query? wd aw ≠ .executed q) := by
  intro query? wd aw
  refine ⟨rfl, rfl, ?_, ?_⟩ <;> intro q h <;> exact ToolResult.noConfusion h

end ServerModel
